import Mathlib

/-!
Verification of the snowops ANPR service event-ingestion pipeline
(internal/service ProcessIncomingEvent, internal/utils NormalizePlate,
internal/repository ExistsRecentEvent / GetOrCreatePlate / CreateANPREvent,
and the two HTTP boundary error mappings).

Shallow embedding conventions:
* Strings are Lean strings; the character-level Go helpers
  (strings.TrimSpace, strings.ToUpper, strings.ToLower) are modelled with
  the ASCII/Latin-1 fragment they use on this service's data, via the core
  ASCII maps Char.toUpper and Char.toLower.
* time.Time is an Int of nanoseconds; the Go zero time is 0, matching the
  IsZero validation check, and time.Minute is 60000000000.
* float64 quantities (confidence, percentages, volumes) are rationals; all
  computations the claims exercise are exact in both representations.
* UUIDs are naturals; ids minted by uuid.New() enter as explicit arguments.
* Database tables are in-memory lists inside Store; the external vehicles
  registry and the camera-to-polygon resolver are read-only functions.
-/

namespace SnowOps

/-- Whitespace recognised by Go unicode.IsSpace on the Latin-1 range
(tab, LF, VT, FF, CR, space, NEL, NBSP); the service only ever compares
ASCII camera payloads. -/
def goIsSpace (c : Char) : Bool :=
  c == ' ' || c == Char.ofNat 9 || c == Char.ofNat 10 || c == Char.ofNat 11 ||
    c == Char.ofNat 12 || c == Char.ofNat 13 || c == Char.ofNat 133 || c == Char.ofNat 160

/-- Go strings.TrimSpace on a character list: drop the leading and trailing
whitespace runs. -/
def trimSpace (s : List Char) : List Char :=
  ((s.dropWhile goIsSpace).reverse.dropWhile goIsSpace).reverse

/-- Go strings.ReplaceAll s (singleton x) empty: delete every occurrence of
the character x. -/
def removeAll (x : Char) (s : List Char) : List Char :=
  s.filter (fun c => !(c == x))

/-- internal/utils/normalize_plate.go NormalizePlate, character-list form:
TrimSpace, then ReplaceAll of the space character, then ReplaceAll of the
hyphen, then ToUpper. -/
def normalizePlateL (s : List Char) : List Char :=
  (removeAll '-' (removeAll ' ' (trimSpace s))).map Char.toUpper

/-- internal/utils/normalize_plate.go NormalizePlate. -/
def NormalizePlate (s : String) : String :=
  String.mk (normalizePlateL s.data)

/-- Go strings.ToLower (ASCII fragment used by the service). -/
def lowerStr (s : String) : String :=
  String.mk (s.data.map Char.toLower)

/-- Character allowed in an object-store path segment by sanitizePathSegment
(part_001): lowercase ASCII letter, digit, hyphen or underscore. -/
def allowedSeg (c : Char) : Bool :=
  (decide ('a' ≤ c) && decide (c ≤ 'z')) || (decide ('0' ≤ c) && decide (c ≤ '9')) ||
    c == '-' || c == '_'

/-- The builder loop of sanitizePathSegment: keep allowed characters and
replace each maximal run of other characters by a single underscore; the
boolean records whether the previous written character was a replacement
underscore. -/
def sanitizeCore : List Char → Bool → List Char
  | [], _ => []
  | c :: rest, prevU =>
    if allowedSeg c then c :: sanitizeCore rest false
    else if prevU then sanitizeCore rest prevU
    else '_' :: sanitizeCore rest true

/-- Go strings.Trim s of underscores: drop leading and trailing underscore
runs. -/
def trimUnderscore (s : List Char) : List Char :=
  ((s.dropWhile (fun c => c == '_')).reverse.dropWhile (fun c => c == '_')).reverse

/-- sanitizePathSegment (part_001): lowercase and trim the input, return the
fallback if empty, otherwise keep only path-safe characters (collapsing
runs of other characters to one underscore), trim underscores, and fall
back again if nothing remains. -/
def sanitizePathSegment (value fallback : String) : String :=
  let normalized := lowerStr (String.mk (trimSpace value.data))
  if normalized = "" then fallback
  else
    let sanitized := trimUnderscore (sanitizeCore normalized.data false)
    if sanitized = [] then fallback else String.mk sanitized

/-- VehicleData returned by ANPRRepository.GetVehicleByPlate: the active
vehicles-table row for a normalized plate. -/
structure VehicleData where
  brand : String
  model : String
  color : String
  year : Int
  bodyVolumeM3 : ℚ
  contractorId : Option Nat
deriving DecidableEq

/-- The fields of the raw-payload map that ProcessIncomingEvent reads back:
the entries under snow_volume_percentage / snow_volume_confidence when they
hold a JSON float, and matched_snow when it holds a bool. -/
structure RawPayloadBag where
  snowVolumePercentage : Option ℚ
  snowVolumeConfidence : Option ℚ
  matchedSnow : Option Bool
deriving DecidableEq

/-- anpr.EventPayload (internal/domain/anpr/models.go); rawPayload is none
when the Go map is nil. -/
structure EventPayload where
  cameraId : String
  cameraModel : String
  plate : String
  confidence : ℚ
  direction : String
  lane : Int
  eventTime : Int
  vehicleColor : String
  vehicleType : String
  vehicleBrand : String
  vehicleModel : String
  vehicleCountry : String
  vehiclePlateColor : String
  vehicleSpeed : Option ℚ
  snapshotUrl : String
  rawPayload : Option RawPayloadBag
  snowVolumePercentage : Option ℚ
  snowVolumeConfidence : Option ℚ
  snowVolumeM3 : Option ℚ
  matchedSnow : Bool
deriving DecidableEq

/-- A row of the anpr_plates table. -/
structure PlateRow where
  id : Nat
  number : String
  normalized : String
deriving DecidableEq

/-- A row of the anpr_events table as written by
ANPRRepository.CreateANPREvent. -/
structure StoredEvent where
  id : Nat
  plateId : Option Nat
  cameraId : String
  polygonId : Option Nat
  contractorId : Option Nat
  cameraModel : Option String
  direction : Option String
  lane : Option Int
  rawPlate : String
  normalizedPlate : String
  confidence : Option ℚ
  vehicleColor : Option String
  vehicleType : Option String
  vehicleBrand : Option String
  vehicleModel : Option String
  vehicleCountry : Option String
  vehiclePlateColor : Option String
  vehicleSpeed : Option ℚ
  snapshotUrl : Option String
  eventTime : Int
  snowVolumePercentage : Option ℚ
  snowVolumeConfidence : Option ℚ
  snowVolumeM3 : Option ℚ
  matchedSnow : Bool
deriving DecidableEq

/-- A row of the anpr_event_photos table. -/
structure PhotoRow where
  eventId : Nat
  url : String
  displayOrder : Nat
deriving DecidableEq

/-- The transactional store plus the two read-only external lookups:
the active-vehicles registry (GetVehicleByPlate) and the camera-to-polygon
resolver (ResolvePolygonIDByCameraID, errors treated as absent since they
are logged and ignored). -/
structure Store where
  plates : List PlateRow
  events : List StoredEvent
  photos : List PhotoRow
  vehicles : String → Option VehicleData
  polygonByCamera : String → Option Nat

/-- The three distinguishable rejection kinds ProcessIncomingEvent returns
(ErrInvalidInput, ErrDuplicateEvent, ErrVehicleNotWhitelisted). -/
inductive ProcErr
  | invalidInput
  | duplicateEvent
  | vehicleNotWhitelisted
deriving DecidableEq

/-- anpr.ProcessResult. -/
structure ProcessResult where
  eventId : Nat
  plateId : Nat
  plate : String
  vehicleExists : Bool
  photoUrls : List String
deriving DecidableEq

deriving instance DecidableEq for Except

/-- Go time.Minute in nanoseconds. -/
def minuteNs : Int := 60 * 1000000000

/-- ANPRRepository.ExistsRecentEvent: true when any stored event shares the
(normalized plate, camera id) pair and has event_time BETWEEN t - window
AND t + window (inclusive on both ends). -/
def existsRecentEvent (events : List StoredEvent) (normalized cameraId : String)
    (t window : Int) : Bool :=
  events.any fun e =>
    e.normalizedPlate == normalized && e.cameraId == cameraId &&
      decide (t - window ≤ e.eventTime) && decide (e.eventTime ≤ t + window)

/-- ANPRRepository.GetOrCreatePlate; the uuid minted for a missing row
enters as the freshId argument. -/
def getOrCreatePlate (plates : List PlateRow) (normalized original : String)
    (freshId : Nat) : Nat × List PlateRow :=
  match plates.find? (fun p => p.normalized == normalized) with
  | some p => (p.id, plates)
  | none => (freshId, plates ++ [{ id := freshId, number := original, normalized := normalized }])

/-- CreateANPREvent stores an empty string as a NULL column. -/
def optStr (s : String) : Option String :=
  if s = "" then none else some s

/-- ANPRRepository.CreateEventPhotos: one row per url, display order by
position. -/
def photoRows (eventId : Nat) (urls : List String) : List PhotoRow :=
  urls.enum.map fun u => { eventId := eventId, url := u.2, displayOrder := u.1 }

/-- The enrichment ProcessIncomingEvent performs once the registry match vd
is in hand, composed with the column mapping of CreateANPREvent: registry
data overwrites the camera brand/model/color fields when non-empty, the
raw-payload map becomes non-nil (the vehicle_year write), the camera model
and direction are defaulted, the snow percentage and confidence default to
0 when absent, the derived volume is percentage / 100 * capacity when the
capacity is positive and NULL otherwise (the percentage is always present
after defaulting, and the vehicle always exists on this path), and
matched_snow falls back to the raw-payload entry. -/
def enrichedRow (payload0 : EventPayload) (vd : VehicleData) (defaultCameraModel : String)
    (eventID plateId : Nat) (normalized : String) (polygonId : Option Nat) : StoredEvent :=
  let brand := if vd.brand ≠ "" then vd.brand else payload0.vehicleBrand
  let model := if vd.model ≠ "" then vd.model else payload0.vehicleModel
  let color := if vd.color ≠ "" then vd.color else payload0.vehicleColor
  let bag := payload0.rawPayload.getD
    { snowVolumePercentage := none, snowVolumeConfidence := none, matchedSnow := none }
  let payload := { payload0 with
                   vehicleBrand := brand
                   vehicleModel := model
                   vehicleColor := color
                   rawPayload := some bag }
  let cameraModel := if payload.cameraModel = "" then defaultCameraModel else payload.cameraModel
  let dir0 := lowerStr payload.direction
  let dir := if dir0 = "" ∨ dir0 = "unknown" then "entry" else dir0
  let pct : ℚ :=
    match payload.snowVolumePercentage with
    | some p => p
    | none => bag.snowVolumePercentage.getD 0
  let conf : ℚ :=
    match payload.snowVolumeConfidence with
    | some cf => cf
    | none => bag.snowVolumeConfidence.getD 0
  let volume : Option ℚ :=
    if 0 < vd.bodyVolumeM3 then some (pct / 100 * vd.bodyVolumeM3) else none
  let ms : Bool := if payload.matchedSnow then payload.matchedSnow else bag.matchedSnow.getD false
  { id := eventID
    plateId := some plateId
    cameraId := payload.cameraId
    polygonId := polygonId
    contractorId := vd.contractorId
    cameraModel := optStr cameraModel
    direction := optStr dir
    lane := if payload.lane = (0 : Int) then none else some payload.lane
    rawPlate := payload.plate
    normalizedPlate := normalized
    confidence := if payload.confidence = (0 : ℚ) then none else some payload.confidence
    vehicleColor := optStr payload.vehicleColor
    vehicleType := optStr payload.vehicleType
    vehicleBrand := optStr payload.vehicleBrand
    vehicleModel := optStr payload.vehicleModel
    vehicleCountry := optStr payload.vehicleCountry
    vehiclePlateColor := optStr payload.vehiclePlateColor
    vehicleSpeed := payload.vehicleSpeed
    snapshotUrl := optStr payload.snapshotUrl
    eventTime := payload.eventTime
    snowVolumePercentage := some pct
    snowVolumeConfidence := some conf
    snowVolumeM3 := volume
    matchedSnow := ms }

/-- ANPRService.ProcessIncomingEvent (part_004): required-field validation,
plate normalization, the hard-coded 5-minute dedup gate, plate
get-or-create, the vehicles whitelist gate, enrichment and persistence of
the event row and its photo rows. A rejection returns the store as it
stands at the point of rejection (the plate row created before the
whitelist check survives a VehicleNotWhitelisted rejection). -/
def processIncomingEvent (store : Store) (payload : EventPayload)
    (defaultCameraModel : String) (eventID : Nat) (photoURLs : List String)
    (freshPlateId : Nat) : Except ProcErr ProcessResult × Store :=
  if payload.plate = "" then (Except.error ProcErr.invalidInput, store)
  else if payload.cameraId = "" then (Except.error ProcErr.invalidInput, store)
  else if payload.eventTime = 0 then (Except.error ProcErr.invalidInput, store)
  else
    let normalized := NormalizePlate payload.plate
    if normalized = "" then (Except.error ProcErr.invalidInput, store)
    else if existsRecentEvent store.events normalized payload.cameraId
        payload.eventTime (5 * minuteNs) then
      (Except.error ProcErr.duplicateEvent, store)
    else
      let gp := getOrCreatePlate store.plates normalized payload.plate freshPlateId
      match store.vehicles normalized with
      | none =>
        (Except.error ProcErr.vehicleNotWhitelisted, { store with plates := gp.2 })
      | some vd =>
        let row := enrichedRow payload vd defaultCameraModel eventID gp.1 normalized
          (store.polygonByCamera payload.cameraId)
        (Except.ok { eventId := eventID
                     plateId := gp.1
                     plate := normalized
                     vehicleExists := true
                     photoUrls := photoURLs },
         { store with
           plates := gp.2
           events := row :: store.events
           photos := store.photos ++ photoRows eventID photoURLs })

/-- The error kinds a handler can see from the service layer: the three
distinguishable rejections plus every other (infrastructure) failure. -/
inductive ServiceError
  | invalidInput
  | duplicateEvent
  | vehicleNotWhitelisted
  | internalFailure
deriving DecidableEq

/-- HTTP status chosen by Handler.createANPREvent (both its JSON and its
multipart paths) for a ProcessIncomingEvent error, following its
errors.Is chain. -/
def createANPREventStatus (e : ServiceError) : Nat :=
  if e = ServiceError.invalidInput then 400
  else if e = ServiceError.duplicateEvent then 409
  else if e = ServiceError.vehicleNotWhitelisted then 403
  else 500

/-- Whether Handler.createANPREvent answers with the generic internal-error
body instead of the error's own message. -/
def createANPREventBodyGeneric (e : ServiceError) : Bool :=
  !(e == ServiceError.invalidInput || e == ServiceError.duplicateEvent ||
    e == ServiceError.vehicleNotWhitelisted)

/-- HTTP status chosen by Handler.createHikvisionEvent: its errors.Is chain
checks only ErrInvalidInput and ErrVehicleNotWhitelisted. -/
def createHikvisionEventStatus (e : ServiceError) : Nat :=
  if e = ServiceError.invalidInput then 400
  else if e = ServiceError.vehicleNotWhitelisted then 403
  else 500

/-- Whether Handler.createHikvisionEvent answers with the generic
internal-error body instead of the error's own message. -/
def createHikvisionEventBodyGeneric (e : ServiceError) : Bool :=
  !(e == ServiceError.invalidInput || e == ServiceError.vehicleNotWhitelisted)

/-- The client-facing outcome of an error on the structured JSON/multipart
boundary: status code and whether the body is the generic opaque text. -/
def anprOutcome (e : ServiceError) : Nat × Bool :=
  (createANPREventStatus e, createANPREventBodyGeneric e)

/-- The client-facing outcome of an error on the vendor XML boundary. -/
def hikvisionOutcome (e : ServiceError) : Nat × Bool :=
  (createHikvisionEventStatus e, createHikvisionEventBodyGeneric e)

/-- Modelled from the spec: two raw plate strings that differ only by
letter case, internal hyphens, or surrounding/embedded whitespace (the
relation claimed by the specification to be collapsed by NormalizePlate). -/
inductive WsEquiv : List Char → List Char → Prop
  | nil : WsEquiv [] []
  | cons {s t : List Char} (c d : Char) (h : Char.toUpper c = Char.toUpper d)
      (hst : WsEquiv s t) : WsEquiv (c :: s) (d :: t)
  | hyphenL {s t : List Char} (hst : WsEquiv s t) : WsEquiv ('-' :: s) t
  | hyphenR {s t : List Char} (hst : WsEquiv s t) : WsEquiv s ('-' :: t)
  | wsL {s t : List Char} (c : Char) (hc : goIsSpace c = true) (hst : WsEquiv s t) :
      WsEquiv (c :: s) t
  | wsR {s t : List Char} (c : Char) (hc : goIsSpace c = true) (hst : WsEquiv s t) :
      WsEquiv s (c :: t)

/-- Two raw plate strings that differ only by letter case, hyphens and
ASCII space characters: the fragment of the claimed relation NormalizePlate
actually collapses. -/
inductive SpEquiv : List Char → List Char → Prop
  | nil : SpEquiv [] []
  | cons {s t : List Char} (c d : Char) (h : Char.toUpper c = Char.toUpper d)
      (hst : SpEquiv s t) : SpEquiv (c :: s) (d :: t)
  | hyphenL {s t : List Char} (hst : SpEquiv s t) : SpEquiv ('-' :: s) t
  | hyphenR {s t : List Char} (hst : SpEquiv s t) : SpEquiv s ('-' :: t)
  | spaceL {s t : List Char} (hst : SpEquiv s t) : SpEquiv (' ' :: s) t
  | spaceR {s t : List Char} (hst : SpEquiv s t) : SpEquiv s (' ' :: t)

/-- A raw-payload bag with none of the snow fields present. -/
def emptyBag : RawPayloadBag :=
  { snowVolumePercentage := none, snowVolumeConfidence := none, matchedSnow := none }

/-- A camera payload with the optional fields at their Go zero values,
used as the base of the concrete runs below. -/
def basePayload : EventPayload :=
  { cameraId := "solnechniy"
    cameraModel := ""
    plate := "123 abc 02"
    confidence := 0
    direction := ""
    lane := 0
    eventTime := 1000
    vehicleColor := ""
    vehicleType := ""
    vehicleBrand := ""
    vehicleModel := ""
    vehicleCountry := ""
    vehiclePlateColor := ""
    vehicleSpeed := none
    snapshotUrl := ""
    rawPayload := none
    snowVolumePercentage := none
    snowVolumeConfidence := none
    snowVolumeM3 := none
    matchedSnow := false }

/-- A registry record for the concrete runs: 17 cubic-meter body. -/
def vdA : VehicleData :=
  { brand := "KAMAZ", model := "65115", color := "orange", year := 2020,
    bodyVolumeM3 := 17, contractorId := some 9 }

/-- An empty store whose registry whitelists exactly the plate 123ABC02. -/
def storeA : Store :=
  { plates := []
    events := []
    photos := []
    vehicles := fun p => if p = "123ABC02" then some vdA else none
    polygonByCamera := fun _ => none }

/-- A previously persisted event row for plate 123ABC02 on camera cam1 at
time 1000. -/
def ev0 : StoredEvent :=
  { id := 0, plateId := none, cameraId := "cam1", polygonId := none,
    contractorId := none, cameraModel := none, direction := none, lane := none,
    rawPlate := "123ABC02", normalizedPlate := "123ABC02", confidence := none,
    vehicleColor := none, vehicleType := none, vehicleBrand := none,
    vehicleModel := none, vehicleCountry := none, vehiclePlateColor := none,
    vehicleSpeed := none, snapshotUrl := none, eventTime := 1000,
    snowVolumePercentage := none, snowVolumeConfidence := none,
    snowVolumeM3 := none, matchedSnow := false }

/-- A store holding one event for 123ABC02 on cam1 and an empty registry. -/
def storeC1 : Store :=
  { plates := []
    events := [ev0]
    photos := []
    vehicles := fun _ => none
    polygonByCamera := fun _ => none }

/-- A resubmission of the plate of ev0 on the same camera 100 nanoseconds
later: well inside the 5-minute window. -/
def payloadC1 : EventPayload :=
  { basePayload with
    plate := "123ABC02"
    cameraId := "cam1"
    eventTime := 1100 }

/-- A payload carrying a 50 percent cargo-fill signal. -/
def payloadC3 : EventPayload :=
  { basePayload with snowVolumePercentage := some 50 }

/-- A registry record whose brand column is empty. -/
def vdC5 : VehicleData :=
  { vdA with brand := "" }

/-- storeA with the empty-brand registry record. -/
def storeC5 : Store :=
  { storeA with vehicles := fun p => if p = "123ABC02" then some vdC5 else none }

/-- A payload whose camera supplied a non-empty brand. -/
def payloadC5 : EventPayload :=
  { basePayload with vehicleBrand := "TOYOTA" }

/-- A payload with the literal unknown direction. -/
def payloadC7 : EventPayload :=
  { basePayload with direction := "unknown" }

/-- A payload with an upper-case direction tag. -/
def payloadC9 : EventPayload :=
  { basePayload with direction := "EXIT" }

/-- An empty store whose registry whitelists nothing. -/
def storeB : Store :=
  { plates := []
    events := []
    photos := []
    vehicles := fun _ => none
    polygonByCamera := fun _ => none }

/-- The cargo-fill percentage ProcessIncomingEvent settles on: the payload
field when present, else the raw-payload entry, else the 0 default. -/
def snowPct (p : EventPayload) : ℚ :=
  match p.snowVolumePercentage with
  | some v => v
  | none => ((p.rawPayload.getD emptyBag).snowVolumePercentage).getD 0

/-- The direction string ProcessIncomingEvent stores: lower-cased, with
empty and unknown replaced by the entry default. -/
def storedDir (p : EventPayload) : String :=
  let d := lowerStr p.direction
  if d = "" ∨ d = "unknown" then "entry" else d

/-- Char.ofNat agrees with the code point below the surrogate range. -/
theorem char_toNat_ofNat {n : Nat} (h : n < 55296) : (Char.ofNat n).toNat = n := by
  unfold Char.ofNat
  rw [dif_pos (Or.inl h)]
  rfl

/-- Characters with equal code points are equal. -/
theorem char_eq_of_toNat_eq {c d : Char} (h : c.toNat = d.toNat) : c = d := by
  apply Char.eq_of_val_eq
  exact UInt32.ext h

/-- Code point of the ASCII upper-case map. -/
theorem toUpper_toNat (c : Char) :
    (Char.toUpper c).toNat =
      if c.toNat ≥ 97 ∧ c.toNat ≤ 122 then c.toNat - 32 else c.toNat := by
  unfold Char.toUpper
  by_cases h : c.toNat ≥ 97 ∧ c.toNat ≤ 122
  · simp only [h, if_true]
    exact char_toNat_ofNat (by omega)
  · simp only [h, if_false]

/-- Code point of the ASCII lower-case map. -/
theorem toLower_toNat (c : Char) :
    (Char.toLower c).toNat =
      if c.toNat ≥ 65 ∧ c.toNat ≤ 90 then c.toNat + 32 else c.toNat := by
  unfold Char.toLower
  by_cases h : c.toNat ≥ 65 ∧ c.toNat ≤ 90
  · simp only [h, if_true]
    exact char_toNat_ofNat (by omega)
  · simp only [h, if_false]

/-- Only the space character upper-cases to the space character. -/
theorem toUpper_eq_space_iff {c : Char} : Char.toUpper c = ' ' ↔ c = ' ' := by
  constructor
  · intro h
    have h2 := congrArg Char.toNat h
    rw [toUpper_toNat] at h2
    have h32 : (' ' : Char).toNat = 32 := rfl
    by_cases hr : c.toNat ≥ 97 ∧ c.toNat ≤ 122
    · rw [if_pos hr, h32] at h2
      omega
    · rw [if_neg hr] at h2
      exact char_eq_of_toNat_eq h2
  · intro h; subst h; decide

/-- Only the hyphen upper-cases to the hyphen. -/
theorem toUpper_eq_hyphen_iff {c : Char} : Char.toUpper c = '-' ↔ c = '-' := by
  constructor
  · intro h
    have h2 := congrArg Char.toNat h
    rw [toUpper_toNat] at h2
    have h45 : ('-' : Char).toNat = 45 := rfl
    by_cases hr : c.toNat ≥ 97 ∧ c.toNat ≤ 122
    · rw [if_pos hr, h45] at h2
      omega
    · rw [if_neg hr] at h2
      exact char_eq_of_toNat_eq h2
  · intro h; subst h; decide

/-- The ASCII lower-case map never returns an ASCII upper-case letter. -/
theorem toLower_not_upper (c : Char) :
    ¬(65 ≤ (Char.toLower c).toNat ∧ (Char.toLower c).toNat ≤ 90) := by
  rw [toLower_toNat]
  by_cases h : c.toNat ≥ 65 ∧ c.toNat ≤ 90
  · rw [if_pos h]; omega
  · rw [if_neg h]; omega

/-- dropWhile of an all-satisfying list is empty. -/
theorem dropWhile_eq_nil_all {α : Type} {p : α → Bool} {l : List α}
    (h : ∀ c ∈ l, p c = true) : l.dropWhile p = [] := by
  induction l with
  | nil => rfl
  | cons c l' ih =>
    rw [List.dropWhile_cons, if_pos (h c (List.mem_cons_self c l'))]
    exact ih fun x hx => h x (List.mem_cons_of_mem c hx)

/-- Surrounding whitespace padding does not change TrimSpace's result. -/
theorem trimSpace_pad {w1 w2 : List Char} (s : List Char)
    (h1 : ∀ c ∈ w1, goIsSpace c = true) (h2 : ∀ c ∈ w2, goIsSpace c = true) :
    trimSpace (w1 ++ s ++ w2) = trimSpace s := by
  unfold trimSpace
  rw [List.append_assoc, List.dropWhile_append_of_pos h1, List.dropWhile_append]
  by_cases hh : (s.dropWhile goIsSpace).isEmpty = true
  · rw [if_pos hh, dropWhile_eq_nil_all h2, List.isEmpty_iff.mp hh]
  · rw [if_neg hh, List.reverse_append,
      List.dropWhile_append_of_pos (fun c hc => h2 c (List.mem_reverse.mp hc))]

theorem removeAll_cons_self (x : Char) (s : List Char) :
    removeAll x (x :: s) = removeAll x s := by
  simp [removeAll]

theorem removeAll_cons_ne {x c : Char} (h : c ≠ x) (s : List Char) :
    removeAll x (c :: s) = c :: removeAll x s := by
  simp [removeAll, h]

theorem removeSH_cons_hyphen (s : List Char) :
    removeAll '-' (removeAll ' ' ('-' :: s)) = removeAll '-' (removeAll ' ' s) := by
  rw [removeAll_cons_ne (by decide) s, removeAll_cons_self]

theorem removeSH_cons_space (s : List Char) :
    removeAll '-' (removeAll ' ' (' ' :: s)) = removeAll '-' (removeAll ' ' s) := by
  rw [removeAll_cons_self]

theorem removeSH_cons_other {c : Char} (h1 : c ≠ ' ') (h2 : c ≠ '-') (s : List Char) :
    removeAll '-' (removeAll ' ' (c :: s)) = c :: removeAll '-' (removeAll ' ' s) := by
  rw [removeAll_cons_ne h1 s, removeAll_cons_ne h2]

/-- Dropping a leading whitespace run commutes with deleting spaces when the
only whitespace around is the space character. -/
theorem removeSpace_dropWhile {s : List Char}
    (hs : ∀ c ∈ s, goIsSpace c = true → c = ' ') :
    removeAll ' ' (s.dropWhile goIsSpace) = removeAll ' ' s := by
  induction s with
  | nil => rfl
  | cons c s' ih =>
    by_cases hc : goIsSpace c = true
    · have hcs : c = ' ' := hs c (List.mem_cons_self c s') hc
      subst hcs
      rw [List.dropWhile_cons, if_pos hc, removeAll_cons_self]
      exact ih fun x hx hw => hs x (List.mem_cons_of_mem _ hx) hw
    · rw [List.dropWhile_cons, if_neg hc]

/-- TrimSpace is invisible to space deletion when the only whitespace in
the string is the space character. -/
theorem removeSpace_trimSpace {s : List Char}
    (hs : ∀ c ∈ s, goIsSpace c = true → c = ' ') :
    removeAll ' ' (trimSpace s) = removeAll ' ' s := by
  unfold trimSpace
  have hsub1 : ∀ c ∈ s.dropWhile goIsSpace, c ∈ s :=
    fun c hc => (List.dropWhile_sublist goIsSpace).subset hc
  have hs1 : ∀ c ∈ (s.dropWhile goIsSpace).reverse, goIsSpace c = true → c = ' ' :=
    fun c hc => hs c (hsub1 c (List.mem_reverse.mp hc))
  calc removeAll ' ' ((s.dropWhile goIsSpace).reverse.dropWhile goIsSpace).reverse
      = (removeAll ' ' ((s.dropWhile goIsSpace).reverse.dropWhile goIsSpace)).reverse := by
        simp [removeAll, List.filter_reverse]
    _ = (removeAll ' ' ((s.dropWhile goIsSpace).reverse)).reverse := by
        rw [removeSpace_dropWhile hs1]
    _ = removeAll ' ' (s.dropWhile goIsSpace) := by
        simp [removeAll, List.filter_reverse]
    _ = removeAll ' ' s := removeSpace_dropWhile hs

/-- Under the space-only hypothesis, NormalizePlate is the one-pass filter
and upper-case map. -/
theorem normalizePlateL_spaceOnly {s : List Char}
    (hs : ∀ c ∈ s, goIsSpace c = true → c = ' ') :
    normalizePlateL s = (removeAll '-' (removeAll ' ' s)).map Char.toUpper := by
  unfold normalizePlateL
  rw [removeSpace_trimSpace hs]

/-- Strings related by SpEquiv have the same filtered upper-case image. -/
theorem spEquiv_filter_map {s t : List Char} (h : SpEquiv s t) :
    (removeAll '-' (removeAll ' ' s)).map Char.toUpper =
      (removeAll '-' (removeAll ' ' t)).map Char.toUpper := by
  induction h with
  | nil => rfl
  | cons c d hcd hst ih =>
    by_cases hcsp : c = ' '
    · subst hcsp
      have hd : d = ' ' := toUpper_eq_space_iff.mp (by rw [← hcd]; decide)
      subst hd
      rw [removeSH_cons_space, removeSH_cons_space]
      exact ih
    · have hdsp : d ≠ ' ' := by
        intro hd; subst hd
        exact hcsp (toUpper_eq_space_iff.mp (by rw [hcd]; decide))
      by_cases hchy : c = '-'
      · subst hchy
        have hd : d = '-' := toUpper_eq_hyphen_iff.mp (by rw [← hcd]; decide)
        subst hd
        rw [removeSH_cons_hyphen, removeSH_cons_hyphen]
        exact ih
      · have hdhy : d ≠ '-' := by
          intro hd; subst hd
          exact hchy (toUpper_eq_hyphen_iff.mp (by rw [hcd]; decide))
        rw [removeSH_cons_other hcsp hchy, removeSH_cons_other hdsp hdhy,
          List.map_cons, List.map_cons, hcd, ih]
  | hyphenL hst ih =>
    rw [removeSH_cons_hyphen]
    exact ih
  | hyphenR hst ih =>
    rw [removeSH_cons_hyphen]
    exact ih
  | spaceL hst ih =>
    rw [removeSH_cons_space]
    exact ih
  | spaceR hst ih =>
    rw [removeSH_cons_space]
    exact ih

/-- C6 counterexample: the two plate strings differ only by one embedded
whitespace character (a tab), yet NormalizePlate does not identify them:
the internal strip removes only the ASCII space, so the tab survives. -/
theorem c6_counterexample :
    WsEquiv "123\tABC02".data "123ABC02".data ∧
    NormalizePlate "123\tABC02" ≠ NormalizePlate "123ABC02" := by
  constructor
  · show WsEquiv ['1', '2', '3', '\t', 'A', 'B', 'C', '0', '2']
      ['1', '2', '3', 'A', 'B', 'C', '0', '2']
    exact .cons '1' '1' rfl (.cons '2' '2' rfl (.cons '3' '3' rfl
      (.wsL '\t' (by decide) (.cons 'A' 'A' rfl (.cons 'B' 'B' rfl (.cons 'C' 'C' rfl
        (.cons '0' '0' rfl (.cons '2' '2' rfl .nil))))))))
  · decide

/-- C6 (amended): NormalizePlate gives identical output on plate strings
that differ only by letter case, hyphens and ASCII spaces, under arbitrary
surrounding whitespace, provided whitespace inside the trimmed plate is the
ASCII space (embedded non-space whitespace survives normalization, see the
counterexample); the three documented examples all normalize to 123ABC02,
and the function is total and deterministic with empty input yielding
empty output. -/
theorem c6_normalize_equiv (s t w1 w2 w3 w4 : List Char)
    (hs : ∀ c ∈ s, goIsSpace c = true → c = ' ')
    (ht : ∀ c ∈ t, goIsSpace c = true → c = ' ')
    (h1 : ∀ c ∈ w1, goIsSpace c = true) (h2 : ∀ c ∈ w2, goIsSpace c = true)
    (h3 : ∀ c ∈ w3, goIsSpace c = true) (h4 : ∀ c ∈ w4, goIsSpace c = true)
    (heq : SpEquiv s t) :
    normalizePlateL (w1 ++ s ++ w2) = normalizePlateL (w3 ++ t ++ w4) ∧
    NormalizePlate "123 ABC 02" = "123ABC02" ∧
    NormalizePlate "123-abc-02" = "123ABC02" ∧
    NormalizePlate " 123ABC02 " = "123ABC02" ∧
    NormalizePlate "" = "" := by
  refine ⟨?_, by decide, by decide, by decide, by decide⟩
  have e1 : normalizePlateL (w1 ++ s ++ w2) =
      (removeAll '-' (removeAll ' ' s)).map Char.toUpper := by
    unfold normalizePlateL
    rw [trimSpace_pad s h1 h2, removeSpace_trimSpace hs]
  have e2 : normalizePlateL (w3 ++ t ++ w4) =
      (removeAll '-' (removeAll ' ' t)).map Char.toUpper := by
    unfold normalizePlateL
    rw [trimSpace_pad t h3 h4, removeSpace_trimSpace ht]
  rw [e1, e2]
  exact spEquiv_filter_map heq

/-- C6 witness: the amended equivalence applied at a concrete instance
(a lower-case plate against its padded, hyphenated upper-case spelling). -/
theorem c6_witness :
    normalizePlateL ([' '] ++ ['a'] ++ []) =
      normalizePlateL ([] ++ ['-', 'A', ' '] ++ ['\t']) ∧
    NormalizePlate "123 ABC 02" = "123ABC02" ∧
    NormalizePlate "123-abc-02" = "123ABC02" ∧
    NormalizePlate " 123ABC02 " = "123ABC02" ∧
    NormalizePlate "" = "" :=
  c6_normalize_equiv ['a'] ['-', 'A', ' '] [' '] [] [] ['\t']
    (by decide) (by decide) (by decide) (by decide) (by decide) (by decide)
    (SpEquiv.hyphenR (SpEquiv.cons 'a' 'A' (by decide) (SpEquiv.spaceR SpEquiv.nil)))

/-- A member of the event log matching the pair inside the window makes the
dedup query true. -/
theorem existsRecentEvent_true {events : List StoredEvent} {n c : String} {t w : Int}
    {e : StoredEvent} (he : e ∈ events) (h1 : e.normalizedPlate = n)
    (h2 : e.cameraId = c) (h3 : t - w ≤ e.eventTime) (h4 : e.eventTime ≤ t + w) :
    existsRecentEvent events n c t w = true := by
  unfold existsRecentEvent
  rw [List.any_eq_true]
  exact ⟨e, he, by simp [h1, h2, h3, h4]⟩

/-- The dedup query is false when no stored event matches the pair inside
the window. -/
theorem existsRecentEvent_false {events : List StoredEvent} {n c : String} {t w : Int}
    (h : ∀ e ∈ events, e.normalizedPlate = n → e.cameraId = c →
        ¬(t - w ≤ e.eventTime ∧ e.eventTime ≤ t + w)) :
    existsRecentEvent events n c t w = false := by
  unfold existsRecentEvent
  rw [List.any_eq_false]
  intro e he hcontra
  simp only [Bool.and_eq_true, beq_iff_eq, decide_eq_true_eq] at hcontra
  exact h e he hcontra.1.1.1 hcontra.1.1.2 ⟨hcontra.1.2, hcontra.2⟩

/-- Shape of an accepted run of ProcessIncomingEvent: when validation
passes, no recent duplicate exists and the registry holds a matching
active vehicle, the enriched row is persisted together with the photo rows
and the plate get-or-create result. -/
theorem processIncomingEvent_accept {store : Store} {payload : EventPayload}
    {dcm : String} {eid : Nat} {ph : List String} {fp : Nat} {vd : VehicleData}
    (hp : payload.plate ≠ "") (hc : payload.cameraId ≠ "") (ht : payload.eventTime ≠ 0)
    (hn : NormalizePlate payload.plate ≠ "")
    (hdup : existsRecentEvent store.events (NormalizePlate payload.plate) payload.cameraId
        payload.eventTime (5 * minuteNs) = false)
    (hveh : store.vehicles (NormalizePlate payload.plate) = some vd) :
    processIncomingEvent store payload dcm eid ph fp =
      (Except.ok { eventId := eid
                   plateId := (getOrCreatePlate store.plates (NormalizePlate payload.plate)
                     payload.plate fp).1
                   plate := NormalizePlate payload.plate
                   vehicleExists := true
                   photoUrls := ph },
       { store with
         plates := (getOrCreatePlate store.plates (NormalizePlate payload.plate)
           payload.plate fp).2
         events := enrichedRow payload vd dcm eid
             (getOrCreatePlate store.plates (NormalizePlate payload.plate) payload.plate fp).1
             (NormalizePlate payload.plate) (store.polygonByCamera payload.cameraId)
           :: store.events
         photos := store.photos ++ photoRows eid ph }) := by
  simp only [processIncomingEvent, if_neg hp, if_neg hc, if_neg ht, if_neg hn, hdup,
    Bool.false_eq_true, if_false, hveh]

/-- Shape of a duplicate rejection: nothing at all is written. -/
theorem processIncomingEvent_duplicate {store : Store} {payload : EventPayload}
    {dcm : String} {eid : Nat} {ph : List String} {fp : Nat}
    (hp : payload.plate ≠ "") (hc : payload.cameraId ≠ "") (ht : payload.eventTime ≠ 0)
    (hn : NormalizePlate payload.plate ≠ "")
    (hdup : existsRecentEvent store.events (NormalizePlate payload.plate) payload.cameraId
        payload.eventTime (5 * minuteNs) = true) :
    processIncomingEvent store payload dcm eid ph fp =
      (Except.error ProcErr.duplicateEvent, store) := by
  simp only [processIncomingEvent, if_neg hp, if_neg hc, if_neg ht, if_neg hn, hdup, if_true]

/-- Shape of a whitelist rejection: the plate row survives but no event row
is written. -/
theorem processIncomingEvent_notWhitelisted {store : Store} {payload : EventPayload}
    {dcm : String} {eid : Nat} {ph : List String} {fp : Nat}
    (hp : payload.plate ≠ "") (hc : payload.cameraId ≠ "") (ht : payload.eventTime ≠ 0)
    (hn : NormalizePlate payload.plate ≠ "")
    (hdup : existsRecentEvent store.events (NormalizePlate payload.plate) payload.cameraId
        payload.eventTime (5 * minuteNs) = false)
    (hveh : store.vehicles (NormalizePlate payload.plate) = none) :
    processIncomingEvent store payload dcm eid ph fp =
      (Except.error ProcErr.vehicleNotWhitelisted,
       { store with
         plates := (getOrCreatePlate store.plates (NormalizePlate payload.plate)
           payload.plate fp).2 }) := by
  simp only [processIncomingEvent, if_neg hp, if_neg hc, if_neg ht, if_neg hn, hdup,
    Bool.false_eq_true, if_false, hveh]

/-- Whatever else happens, a plate absent from the registry never gains an
event row. -/
theorem events_unchanged_of_noVehicle (store : Store) (payload : EventPayload)
    (dcm : String) (eid : Nat) (ph : List String) (fp : Nat)
    (hveh : store.vehicles (NormalizePlate payload.plate) = none) :
    ((processIncomingEvent store payload dcm eid ph fp).2).events = store.events := by
  unfold processIncomingEvent
  by_cases h1 : payload.plate = ""
  · rw [if_pos h1]
  · rw [if_neg h1]
    by_cases h2 : payload.cameraId = ""
    · rw [if_pos h2]
    · rw [if_neg h2]
      by_cases h3 : payload.eventTime = 0
      · rw [if_pos h3]
      · rw [if_neg h3]
        simp only [hveh]
        by_cases h4 : NormalizePlate payload.plate = ""
        · rw [if_pos h4]
        · rw [if_neg h4]
          by_cases h5 : existsRecentEvent store.events (NormalizePlate payload.plate)
              payload.cameraId payload.eventTime (5 * minuteNs) = true
          · rw [if_pos h5]
          · rw [if_neg h5]

theorem enrichedRow_id (payload : EventPayload) (vd : VehicleData) (dcm : String)
    (eid pid : Nat) (norm : String) (poly : Option Nat) :
    (enrichedRow payload vd dcm eid pid norm poly).id = eid := rfl

theorem enrichedRow_cameraId (payload : EventPayload) (vd : VehicleData) (dcm : String)
    (eid pid : Nat) (norm : String) (poly : Option Nat) :
    (enrichedRow payload vd dcm eid pid norm poly).cameraId = payload.cameraId := rfl

theorem enrichedRow_normalizedPlate (payload : EventPayload) (vd : VehicleData) (dcm : String)
    (eid pid : Nat) (norm : String) (poly : Option Nat) :
    (enrichedRow payload vd dcm eid pid norm poly).normalizedPlate = norm := rfl

theorem enrichedRow_eventTime (payload : EventPayload) (vd : VehicleData) (dcm : String)
    (eid pid : Nat) (norm : String) (poly : Option Nat) :
    (enrichedRow payload vd dcm eid pid norm poly).eventTime = payload.eventTime := rfl

/-- The stored derived volume: present exactly when the matched capacity is
positive, with value percentage / 100 * capacity. -/
theorem enrichedRow_snowVolumeM3 (payload : EventPayload) (vd : VehicleData) (dcm : String)
    (eid pid : Nat) (norm : String) (poly : Option Nat) :
    (enrichedRow payload vd dcm eid pid norm poly).snowVolumeM3 =
      if 0 < vd.bodyVolumeM3 then some (snowPct payload / 100 * vd.bodyVolumeM3)
      else none := rfl

/-- The stored direction column. -/
theorem enrichedRow_direction (payload : EventPayload) (vd : VehicleData) (dcm : String)
    (eid pid : Nat) (norm : String) (poly : Option Nat) :
    (enrichedRow payload vd dcm eid pid norm poly).direction = optStr (storedDir payload) := rfl

/-- The stored brand column: registry value when non-empty, camera value
otherwise. -/
theorem enrichedRow_brand (payload : EventPayload) (vd : VehicleData) (dcm : String)
    (eid pid : Nat) (norm : String) (poly : Option Nat) :
    (enrichedRow payload vd dcm eid pid norm poly).vehicleBrand =
      optStr (if vd.brand ≠ "" then vd.brand else payload.vehicleBrand) := rfl

/-- The stored model column: registry value when non-empty, camera value
otherwise. -/
theorem enrichedRow_model (payload : EventPayload) (vd : VehicleData) (dcm : String)
    (eid pid : Nat) (norm : String) (poly : Option Nat) :
    (enrichedRow payload vd dcm eid pid norm poly).vehicleModel =
      optStr (if vd.model ≠ "" then vd.model else payload.vehicleModel) := rfl

/-- The stored color column: registry value when non-empty, camera value
otherwise. -/
theorem enrichedRow_color (payload : EventPayload) (vd : VehicleData) (dcm : String)
    (eid pid : Nat) (norm : String) (poly : Option Nat) :
    (enrichedRow payload vd dcm eid pid norm poly).vehicleColor =
      optStr (if vd.color ≠ "" then vd.color else payload.vehicleColor) := rfl

/-- C1 counterexample: an unregistered plate resubmitted within the
5-minute window of a stored event is rejected with DuplicateEvent, not
VehicleNotWhitelisted, because the dedup gate runs before the whitelist
gate. -/
theorem c1_counterexample :
    storeC1.vehicles (NormalizePlate payloadC1.plate) = none ∧
    (processIncomingEvent storeC1 payloadC1 "m" 7 [] 8).1 ≠
      Except.error ProcErr.vehicleNotWhitelisted ∧
    (processIncomingEvent storeC1 payloadC1 "m" 7 [] 8).1 =
      Except.error ProcErr.duplicateEvent := by
  decide

/-- C1 (amended): when validation passes and no recent duplicate exists,
an event whose normalized plate has no active registry record is rejected
with VehicleNotWhitelisted and the event log is unchanged; and no run of
ProcessIncomingEvent on an unregistered plate ever adds an event row,
whatever the store contains. -/
theorem c1_whitelist_gate (store : Store) (payload : EventPayload) (dcm : String)
    (eid : Nat) (ph : List String) (fp : Nat)
    (hp : payload.plate ≠ "") (hc : payload.cameraId ≠ "") (ht : payload.eventTime ≠ 0)
    (hn : NormalizePlate payload.plate ≠ "")
    (hdup : existsRecentEvent store.events (NormalizePlate payload.plate) payload.cameraId
        payload.eventTime (5 * minuteNs) = false)
    (hveh : store.vehicles (NormalizePlate payload.plate) = none) :
    ((processIncomingEvent store payload dcm eid ph fp).1 =
        Except.error ProcErr.vehicleNotWhitelisted ∧
      ((processIncomingEvent store payload dcm eid ph fp).2).events = store.events) ∧
    ∀ (s : Store) (p : EventPayload) (d : String) (e : Nat) (u : List String) (f : Nat),
      s.vehicles (NormalizePlate p.plate) = none →
      ((processIncomingEvent s p d e u f).2).events = s.events := by
  refine ⟨?_, fun s p d e u f hv => events_unchanged_of_noVehicle s p d e u f hv⟩
  rw [processIncomingEvent_notWhitelisted hp hc ht hn hdup hveh]
  exact ⟨rfl, rfl⟩

/-- C1 witness: a concrete well-formed event for an unregistered plate on
an empty store is rejected with VehicleNotWhitelisted and stores no event
row. -/
theorem c1_witness :
    (processIncomingEvent storeB payloadC1 "m" 7 [] 8).1 =
      Except.error ProcErr.vehicleNotWhitelisted ∧
    ((processIncomingEvent storeB payloadC1 "m" 7 [] 8).2).events = storeB.events :=
  (c1_whitelist_gate storeB payloadC1 "m" 7 [] 8
    (by decide) (by decide) (by decide) (by decide) (by decide) (by decide)).1

/-- C2: a valid submission matching a stored event's (normalized plate,
camera id) pair with a timestamp within plus-or-minus 5 minutes is
rejected with DuplicateEvent and writes nothing at all; and two valid
whitelisted submissions of the same pair more than 5 minutes apart, onto a
log with no prior row for the pair, both persist as distinct stored
events. -/
theorem c2_dedup_window :
    (∀ (store : Store) (payload : EventPayload) (dcm : String) (eid : Nat)
        (ph : List String) (fp : Nat) (e : StoredEvent),
      payload.plate ≠ "" → payload.cameraId ≠ "" → payload.eventTime ≠ 0 →
      NormalizePlate payload.plate ≠ "" →
      e ∈ store.events → e.normalizedPlate = NormalizePlate payload.plate →
      e.cameraId = payload.cameraId →
      payload.eventTime - 5 * minuteNs ≤ e.eventTime →
      e.eventTime ≤ payload.eventTime + 5 * minuteNs →
      processIncomingEvent store payload dcm eid ph fp =
        (Except.error ProcErr.duplicateEvent, store)) ∧
    (∀ (store : Store) (p1 p2 : EventPayload) (dcm : String) (eid1 eid2 fp1 fp2 : Nat)
        (vd : VehicleData),
      p1.plate ≠ "" → p1.cameraId ≠ "" → p1.eventTime ≠ 0 →
      NormalizePlate p1.plate ≠ "" →
      p2.plate ≠ "" → p2.eventTime ≠ 0 →
      p2.cameraId = p1.cameraId → NormalizePlate p2.plate = NormalizePlate p1.plate →
      (∀ e ∈ store.events,
        ¬(e.normalizedPlate = NormalizePlate p1.plate ∧ e.cameraId = p1.cameraId)) →
      store.vehicles (NormalizePlate p1.plate) = some vd →
      (p1.eventTime + 5 * minuteNs < p2.eventTime ∨
        p2.eventTime + 5 * minuteNs < p1.eventTime) →
      eid1 ≠ eid2 →
      ∃ r1 r2 : StoredEvent,
        ((processIncomingEvent (processIncomingEvent store p1 dcm eid1 [] fp1).2
            p2 dcm eid2 [] fp2).2).events = r2 :: r1 :: store.events ∧
        (∃ a, (processIncomingEvent store p1 dcm eid1 [] fp1).1 = Except.ok a) ∧
        (∃ b, (processIncomingEvent (processIncomingEvent store p1 dcm eid1 [] fp1).2
            p2 dcm eid2 [] fp2).1 = Except.ok b) ∧
        r1.id = eid1 ∧ r2.id = eid2 ∧ r1 ≠ r2) := by
  constructor
  · intro store payload dcm eid ph fp e hp hc ht hn he h1 h2 h3 h4
    exact processIncomingEvent_duplicate hp hc ht hn
      (existsRecentEvent_true he h1 h2 h3 h4)
  · intro store p1 p2 dcm eid1 eid2 fp1 fp2 vd hp1 hc1 ht1 hn1 hp2 ht2 hcam hnorm
      hfresh hveh hfar hne
    have hc2 : p2.cameraId ≠ "" := by rw [hcam]; exact hc1
    have hn2 : NormalizePlate p2.plate ≠ "" := by rw [hnorm]; exact hn1
    have hdup1 : existsRecentEvent store.events (NormalizePlate p1.plate) p1.cameraId
        p1.eventTime (5 * minuteNs) = false :=
      existsRecentEvent_false fun e he h1 h2 _ => hfresh e he ⟨h1, h2⟩
    have hacc1 := @processIncomingEvent_accept store p1 dcm eid1 [] fp1 vd
      hp1 hc1 ht1 hn1 hdup1 hveh
    have hev1 : ((processIncomingEvent store p1 dcm eid1 [] fp1).2).events =
        enrichedRow p1 vd dcm eid1
          (getOrCreatePlate store.plates (NormalizePlate p1.plate) p1.plate fp1).1
          (NormalizePlate p1.plate) (store.polygonByCamera p1.cameraId)
          :: store.events := by
      rw [hacc1]
    have hveq : ((processIncomingEvent store p1 dcm eid1 [] fp1).2).vehicles =
        store.vehicles := by
      rw [hacc1]
    have hdup2 : existsRecentEvent ((processIncomingEvent store p1 dcm eid1 [] fp1).2).events
        (NormalizePlate p2.plate) p2.cameraId p2.eventTime (5 * minuteNs) = false := by
      rw [hev1]
      apply existsRecentEvent_false
      intro e he h1 h2 hw
      rcases List.mem_cons.mp he with rfl | hmem
      · rw [enrichedRow_eventTime] at hw
        rcases hfar with h | h
        · omega
        · omega
      · rw [hnorm] at h1
        rw [hcam] at h2
        exact hfresh e hmem ⟨h1, h2⟩
    have hveh2 : ((processIncomingEvent store p1 dcm eid1 [] fp1).2).vehicles
        (NormalizePlate p2.plate) = some vd := by
      rw [hveq, hnorm]
      exact hveh
    have hacc2 := @processIncomingEvent_accept
      ((processIncomingEvent store p1 dcm eid1 [] fp1).2) p2 dcm eid2 [] fp2 vd
      hp2 hc2 ht2 hn2 hdup2 hveh2
    refine ⟨enrichedRow p1 vd dcm eid1
        (getOrCreatePlate store.plates (NormalizePlate p1.plate) p1.plate fp1).1
        (NormalizePlate p1.plate) (store.polygonByCamera p1.cameraId),
      enrichedRow p2 vd dcm eid2
        (getOrCreatePlate ((processIncomingEvent store p1 dcm eid1 [] fp1).2).plates
          (NormalizePlate p2.plate) p2.plate fp2).1
        (NormalizePlate p2.plate)
        (((processIncomingEvent store p1 dcm eid1 [] fp1).2).polygonByCamera p2.cameraId),
      ?_, ⟨_, by rw [hacc1]⟩, ⟨_, by rw [hacc2]⟩, enrichedRow_id .., enrichedRow_id .., ?_⟩
    · rw [hacc2]
      show enrichedRow p2 vd dcm eid2 _ (NormalizePlate p2.plate) _
          :: ((processIncomingEvent store p1 dcm eid1 [] fp1).2).events = _
      rw [hev1]
    · intro hcontra
      have := congrArg StoredEvent.id hcontra
      rw [enrichedRow_id, enrichedRow_id] at this
      exact hne this

/-- C2 witness: resubmitting the pair of the stored row ev0 100
nanoseconds later is rejected with DuplicateEvent, leaving the store
untouched. -/
theorem c2_witness :
    processIncomingEvent storeC1 payloadC1 "m" 7 [] 8 =
      (Except.error ProcErr.duplicateEvent, storeC1) :=
  c2_dedup_window.1 storeC1 payloadC1 "m" 7 [] 8 ev0
    (by decide) (by decide) (by decide) (by decide) (by decide) (by decide)
    (by decide) (by decide) (by decide)

/-- C3: for an accepted event with a registry match, a 17 cubic-meter
capacity and an incoming 50 percent fill store a derived volume of
8.5 = 17 / 2 cubic meters, and a zero-or-negative capacity leaves the
derived volume NULL whatever the percentage. -/
theorem c3_volume_derivation (store : Store) (payload : EventPayload) (dcm : String)
    (eid : Nat) (ph : List String) (fp : Nat) (vd : VehicleData)
    (hp : payload.plate ≠ "") (hc : payload.cameraId ≠ "") (ht : payload.eventTime ≠ 0)
    (hn : NormalizePlate payload.plate ≠ "")
    (hdup : existsRecentEvent store.events (NormalizePlate payload.plate) payload.cameraId
        payload.eventTime (5 * minuteNs) = false)
    (hveh : store.vehicles (NormalizePlate payload.plate) = some vd) :
    (vd.bodyVolumeM3 = 17 → payload.snowVolumePercentage = some 50 →
      ∃ row : StoredEvent,
        ((processIncomingEvent store payload dcm eid ph fp).2).events = row :: store.events ∧
        row.snowVolumeM3 = some (17 / 2)) ∧
    (vd.bodyVolumeM3 ≤ 0 →
      ∃ row : StoredEvent,
        ((processIncomingEvent store payload dcm eid ph fp).2).events = row :: store.events ∧
        row.snowVolumeM3 = none) := by
  have hacc := @processIncomingEvent_accept store payload dcm eid ph fp vd
    hp hc ht hn hdup hveh
  constructor
  · intro h17 h50
    refine ⟨_, by rw [hacc], ?_⟩
    rw [enrichedRow_snowVolumeM3, h17, if_pos (by norm_num)]
    simp only [snowPct, h50]
    norm_num
  · intro hle
    refine ⟨_, by rw [hacc], ?_⟩
    rw [enrichedRow_snowVolumeM3, if_neg (not_lt.mpr hle)]

/-- C3 witness: the concrete whitelisted run with capacity 17 and incoming
percentage 50. -/
theorem c3_witness :
    ∃ row : StoredEvent,
      ((processIncomingEvent storeA payloadC3 "m" 7 [] 8).2).events = row :: storeA.events ∧
      row.snowVolumeM3 = some (17 / 2) :=
  (c3_volume_derivation storeA payloadC3 "m" 7 [] 8 vdA
    (by decide) (by decide) (by decide) (by decide) (by decide) (by decide)).1
    rfl rfl

/-- C4 counterexample: an accepted event submitted with no snow-volume
signal at all (no payload field, nil raw payload) against a
positive-capacity vehicle still stores a derived volume, namely 0, because
the missing percentage defaults to 0 before the computation. -/
theorem c4_counterexample :
    basePayload.snowVolumePercentage = none ∧ basePayload.rawPayload = none ∧
    ((processIncomingEvent storeA basePayload "m" 3 [] 4).2).events.map
      StoredEvent.snowVolumeM3 = [some 0] := by
  have hacc := @processIncomingEvent_accept storeA basePayload "m" 3 [] 4 vdA
    (by decide) (by decide) (by decide) (by decide) (by decide) (by decide)
  have hev : ((processIncomingEvent storeA basePayload "m" 3 [] 4).2).events =
      [enrichedRow basePayload vdA "m" 3
        (getOrCreatePlate storeA.plates (NormalizePlate basePayload.plate)
          basePayload.plate 4).1
        (NormalizePlate basePayload.plate) (storeA.polygonByCamera basePayload.cameraId)] := by
    rw [hacc]
    rfl
  refine ⟨rfl, rfl, ?_⟩
  rw [hev, List.map_cons, List.map_nil, enrichedRow_snowVolumeM3]
  norm_num [vdA, snowPct, basePayload, emptyBag]

/-- C4 (amended): for an accepted event the stored derived volume is
non-NULL exactly when the matched vehicle's capacity is positive (the
cargo-fill percentage is always known after its default to 0), and an
event with no snow-volume signal and a positive capacity stores the
derived volume 0 rather than leaving it absent. -/
theorem c4_volume_presence (store : Store) (payload : EventPayload) (dcm : String)
    (eid : Nat) (ph : List String) (fp : Nat) (vd : VehicleData)
    (hp : payload.plate ≠ "") (hc : payload.cameraId ≠ "") (ht : payload.eventTime ≠ 0)
    (hn : NormalizePlate payload.plate ≠ "")
    (hdup : existsRecentEvent store.events (NormalizePlate payload.plate) payload.cameraId
        payload.eventTime (5 * minuteNs) = false)
    (hveh : store.vehicles (NormalizePlate payload.plate) = some vd) :
    ∃ row : StoredEvent,
      ((processIncomingEvent store payload dcm eid ph fp).2).events = row :: store.events ∧
      (row.snowVolumeM3 ≠ none ↔ 0 < vd.bodyVolumeM3) ∧
      (payload.snowVolumePercentage = none → payload.rawPayload = none →
        0 < vd.bodyVolumeM3 → row.snowVolumeM3 = some 0) := by
  have hacc := @processIncomingEvent_accept store payload dcm eid ph fp vd
    hp hc ht hn hdup hveh
  refine ⟨_, by rw [hacc], ?_, ?_⟩
  · rw [enrichedRow_snowVolumeM3]
    by_cases hv : 0 < vd.bodyVolumeM3
    · simp [hv]
    · simp [hv]
  · intro hnone hraw hpos
    rw [enrichedRow_snowVolumeM3, if_pos hpos]
    simp [snowPct, hnone, hraw, emptyBag]

/-- C4 witness: the amended statement at the concrete no-signal run. -/
theorem c4_witness :
    ∃ row : StoredEvent,
      ((processIncomingEvent storeA basePayload "m" 3 [] 4).2).events = row :: storeA.events ∧
      (row.snowVolumeM3 ≠ none ↔ 0 < vdA.bodyVolumeM3) ∧
      (basePayload.snowVolumePercentage = none → basePayload.rawPayload = none →
        0 < vdA.bodyVolumeM3 → row.snowVolumeM3 = some 0) :=
  c4_volume_presence storeA basePayload "m" 3 [] 4 vdA
    (by decide) (by decide) (by decide) (by decide) (by decide) (by decide)

/-- C5 counterexample: with a registry match whose brand column is empty,
the camera-supplied brand is stored verbatim, so camera-supplied appearance
data is not always overridden by the registry. -/
theorem c5_counterexample :
    vdC5.brand = "" ∧ payloadC5.vehicleBrand = "TOYOTA" ∧
    storeC5.vehicles (NormalizePlate payloadC5.plate) = some vdC5 ∧
    ((processIncomingEvent storeC5 payloadC5 "m" 3 [] 4).2).events.map
      StoredEvent.vehicleBrand = [some "TOYOTA"] := by
  decide

/-- C5 (amended): for an accepted event with a registry match, each stored
appearance column (brand, model, color) equals the registry's value
whenever that value is non-empty, and falls back to the camera-supplied
value when the registry field is empty. -/
theorem c5_appearance_merge (store : Store) (payload : EventPayload) (dcm : String)
    (eid : Nat) (ph : List String) (fp : Nat) (vd : VehicleData)
    (hp : payload.plate ≠ "") (hc : payload.cameraId ≠ "") (ht : payload.eventTime ≠ 0)
    (hn : NormalizePlate payload.plate ≠ "")
    (hdup : existsRecentEvent store.events (NormalizePlate payload.plate) payload.cameraId
        payload.eventTime (5 * minuteNs) = false)
    (hveh : store.vehicles (NormalizePlate payload.plate) = some vd) :
    ∃ row : StoredEvent,
      ((processIncomingEvent store payload dcm eid ph fp).2).events = row :: store.events ∧
      row.vehicleBrand = optStr (if vd.brand ≠ "" then vd.brand else payload.vehicleBrand) ∧
      row.vehicleModel = optStr (if vd.model ≠ "" then vd.model else payload.vehicleModel) ∧
      row.vehicleColor = optStr (if vd.color ≠ "" then vd.color else payload.vehicleColor) := by
  have hacc := @processIncomingEvent_accept store payload dcm eid ph fp vd
    hp hc ht hn hdup hveh
  exact ⟨_, by rw [hacc], by rw [enrichedRow_brand], by rw [enrichedRow_model],
    by rw [enrichedRow_color]⟩

/-- C5 witness: the amended merge rule at a concrete run whose registry
record has a non-empty brand, model and color. -/
theorem c5_witness :
    ∃ row : StoredEvent,
      ((processIncomingEvent storeA payloadC5 "m" 3 [] 4).2).events = row :: storeA.events ∧
      row.vehicleBrand = optStr (if vdA.brand ≠ "" then vdA.brand else payloadC5.vehicleBrand) ∧
      row.vehicleModel = optStr (if vdA.model ≠ "" then vdA.model else payloadC5.vehicleModel) ∧
      row.vehicleColor = optStr (if vdA.color ≠ "" then vdA.color else payloadC5.vehicleColor) :=
  c5_appearance_merge storeA payloadC5 "m" 3 [] 4 vdA
    (by decide) (by decide) (by decide) (by decide) (by decide) (by decide)

theorem optStr_of_ne {s : String} (h : s ≠ "") : optStr s = some s := if_neg h

theorem storedDir_eq (p : EventPayload) :
    storedDir p =
      if lowerStr p.direction = "" ∨ lowerStr p.direction = "unknown" then "entry"
      else lowerStr p.direction := rfl

/-- The stored direction is never empty. -/
theorem storedDir_ne_empty (p : EventPayload) : storedDir p ≠ "" := by
  rw [storedDir_eq]
  by_cases h : lowerStr p.direction = "" ∨ lowerStr p.direction = "unknown"
  · rw [if_pos h]; decide
  · rw [if_neg h]
    intro hcontra
    exact h (Or.inl hcontra)

/-- The stored direction contains no ASCII upper-case letter. -/
theorem storedDir_no_upper (p : EventPayload) :
    ∀ c ∈ (storedDir p).data, ¬(65 ≤ c.toNat ∧ c.toNat ≤ 90) := by
  rw [storedDir_eq]
  by_cases h : lowerStr p.direction = "" ∨ lowerStr p.direction = "unknown"
  · rw [if_pos h]; decide
  · rw [if_neg h]
    intro c hc
    have hc2 : c ∈ List.map Char.toLower p.direction.data := hc
    rcases List.mem_map.mp hc2 with ⟨c0, _, rfl⟩
    exact toLower_not_upper c0

/-- C7: for an accepted event, an empty or literal-unknown supplied
direction is stored as the entry default, and a supplied exit direction is
stored verbatim as exit. -/
theorem c7_direction_defaulting (store : Store) (payload : EventPayload) (dcm : String)
    (eid : Nat) (ph : List String) (fp : Nat) (vd : VehicleData)
    (hp : payload.plate ≠ "") (hc : payload.cameraId ≠ "") (ht : payload.eventTime ≠ 0)
    (hn : NormalizePlate payload.plate ≠ "")
    (hdup : existsRecentEvent store.events (NormalizePlate payload.plate) payload.cameraId
        payload.eventTime (5 * minuteNs) = false)
    (hveh : store.vehicles (NormalizePlate payload.plate) = some vd) :
    ((payload.direction = "" ∨ payload.direction = "unknown") →
      ∃ row : StoredEvent,
        ((processIncomingEvent store payload dcm eid ph fp).2).events = row :: store.events ∧
        row.direction = some "entry") ∧
    (payload.direction = "exit" →
      ∃ row : StoredEvent,
        ((processIncomingEvent store payload dcm eid ph fp).2).events = row :: store.events ∧
        row.direction = some "exit") := by
  have hacc := @processIncomingEvent_accept store payload dcm eid ph fp vd
    hp hc ht hn hdup hveh
  constructor
  · intro hd
    refine ⟨_, by rw [hacc], ?_⟩
    rw [enrichedRow_direction, storedDir_eq]
    rcases hd with hd | hd
    · rw [hd]; decide
    · rw [hd]; decide
  · intro hd
    refine ⟨_, by rw [hacc], ?_⟩
    rw [enrichedRow_direction, storedDir_eq, hd]
    decide

/-- C7 witness: the literal-unknown direction at the concrete run stores
the entry default. -/
theorem c7_witness :
    ∃ row : StoredEvent,
      ((processIncomingEvent storeA payloadC7 "m" 3 [] 4).2).events = row :: storeA.events ∧
      row.direction = some "entry" :=
  (c7_direction_defaulting storeA payloadC7 "m" 3 [] 4 vdA
    (by decide) (by decide) (by decide) (by decide) (by decide) (by decide)).1
    (Or.inr rfl)

/-- C9 (implicit): for an accepted event, the stored direction is the
lower-casing of the supplied direction unless that lower-casing is empty
or the literal unknown, in which case it is entry; in particular the
stored direction is always non-empty and contains no ASCII upper-case
letter (an EXIT input is stored as exit, not verbatim). -/
theorem c9_direction_lowercase (store : Store) (payload : EventPayload) (dcm : String)
    (eid : Nat) (ph : List String) (fp : Nat) (vd : VehicleData)
    (hp : payload.plate ≠ "") (hc : payload.cameraId ≠ "") (ht : payload.eventTime ≠ 0)
    (hn : NormalizePlate payload.plate ≠ "")
    (hdup : existsRecentEvent store.events (NormalizePlate payload.plate) payload.cameraId
        payload.eventTime (5 * minuteNs) = false)
    (hveh : store.vehicles (NormalizePlate payload.plate) = some vd) :
    ∃ row : StoredEvent,
      ((processIncomingEvent store payload dcm eid ph fp).2).events = row :: store.events ∧
      row.direction = some (if lowerStr payload.direction = "" ∨
          lowerStr payload.direction = "unknown" then "entry"
        else lowerStr payload.direction) ∧
      ∀ d : String, row.direction = some d →
        d ≠ "" ∧ ∀ c ∈ d.data, ¬(65 ≤ c.toNat ∧ c.toNat ≤ 90) := by
  have hacc := @processIncomingEvent_accept store payload dcm eid ph fp vd
    hp hc ht hn hdup hveh
  refine ⟨_, by rw [hacc], ?_, ?_⟩
  · rw [enrichedRow_direction, optStr_of_ne (storedDir_ne_empty payload), storedDir_eq]
  · intro d hd
    rw [enrichedRow_direction, optStr_of_ne (storedDir_ne_empty payload)] at hd
    have hd2 : d = storedDir payload := (Option.some.injEq ..).mp hd.symm
    subst hd2
    exact ⟨storedDir_ne_empty payload, storedDir_no_upper payload⟩

/-- C9 witness: an EXIT input at the concrete run is stored as exit. -/
theorem c9_witness :
    ∃ row : StoredEvent,
      ((processIncomingEvent storeA payloadC9 "m" 3 [] 4).2).events = row :: storeA.events ∧
      row.direction = some (if lowerStr payloadC9.direction = "" ∨
          lowerStr payloadC9.direction = "unknown" then "entry"
        else lowerStr payloadC9.direction) ∧
      ∀ d : String, row.direction = some d →
        d ≠ "" ∧ ∀ c ∈ d.data, ¬(65 ≤ c.toNat ∧ c.toNat ≤ 90) :=
  c9_direction_lowercase storeA payloadC9 "m" 3 [] 4 vdA
    (by decide) (by decide) (by decide) (by decide) (by decide) (by decide)

/-- C8 counterexample: on the vendor XML boundary the DuplicateEvent error
receives exactly the same client-facing outcome as a generic internal
failure (a 500 with the opaque body): the Hikvision handler has no
DuplicateEvent branch, so the three error kinds are not each mapped to a
distinct outcome there. -/
theorem c8_counterexample :
    hikvisionOutcome ServiceError.duplicateEvent =
      hikvisionOutcome ServiceError.internalFailure ∧
    hikvisionOutcome ServiceError.duplicateEvent = (500, true) ∧
    anprOutcome ServiceError.duplicateEvent ≠ anprOutcome ServiceError.internalFailure := by
  decide

/-- C8 (amended): the structured JSON/multipart boundary maps the three
error kinds to pairwise distinct client-facing outcomes, all distinct from
the collapsed opaque internal-failure response; the vendor XML boundary
distinguishes InvalidInput and VehicleNotWhitelisted from each other and
from the internal response, but collapses DuplicateEvent into the opaque
internal-failure outcome. -/
theorem c8_error_mapping :
    (anprOutcome ServiceError.invalidInput ≠ anprOutcome ServiceError.duplicateEvent ∧
      anprOutcome ServiceError.invalidInput ≠ anprOutcome ServiceError.vehicleNotWhitelisted ∧
      anprOutcome ServiceError.duplicateEvent ≠ anprOutcome ServiceError.vehicleNotWhitelisted ∧
      anprOutcome ServiceError.invalidInput ≠ anprOutcome ServiceError.internalFailure ∧
      anprOutcome ServiceError.duplicateEvent ≠ anprOutcome ServiceError.internalFailure ∧
      anprOutcome ServiceError.vehicleNotWhitelisted ≠ anprOutcome ServiceError.internalFailure) ∧
    (hikvisionOutcome ServiceError.invalidInput ≠
        hikvisionOutcome ServiceError.vehicleNotWhitelisted ∧
      hikvisionOutcome ServiceError.invalidInput ≠
        hikvisionOutcome ServiceError.internalFailure ∧
      hikvisionOutcome ServiceError.vehicleNotWhitelisted ≠
        hikvisionOutcome ServiceError.internalFailure ∧
      hikvisionOutcome ServiceError.duplicateEvent =
        hikvisionOutcome ServiceError.internalFailure) := by
  decide

theorem sanitizeCore_allowed :
    ∀ (s : List Char) (b : Bool), ∀ c ∈ sanitizeCore s b, allowedSeg c = true := by
  intro s
  induction s with
  | nil =>
    intro b c hc
    cases hc
  | cons x s' ih =>
    intro b c hc
    unfold sanitizeCore at hc
    by_cases hx : allowedSeg x = true
    · rw [if_pos hx] at hc
      rcases List.mem_cons.mp hc with rfl | hmem
      · exact hx
      · exact ih false c hmem
    · rw [if_neg hx] at hc
      cases b with
      | true =>
        rw [if_pos rfl] at hc
        exact ih true c hc
      | false =>
        rw [if_neg (by decide)] at hc
        rcases List.mem_cons.mp hc with rfl | hmem
        · decide
        · exact ih true c hmem

theorem trimUnderscore_mem {s : List Char} : ∀ c ∈ trimUnderscore s, c ∈ s := by
  intro c hc
  unfold trimUnderscore at hc
  have h1 := List.mem_reverse.mp hc
  have h2 := (List.dropWhile_sublist _).subset h1
  have h3 := List.mem_reverse.mp h2
  exact (List.dropWhile_sublist _).subset h3

/-- C10 (implicit): for every input string the camera-id path segment
sanitizePathSegment value unknown_camera is non-empty and made only of
lowercase letters, digits, hyphens and underscores (so no path separator
can reach the object-store key); the empty input and an input that
reduces to nothing yield the fallback, and a run of disallowed characters
collapses to one underscore. -/
theorem c10_sanitize_segment :
    (∀ v : String, sanitizePathSegment v "unknown_camera" ≠ "" ∧
      ∀ c ∈ (sanitizePathSegment v "unknown_camera").data, allowedSeg c = true) ∧
    sanitizePathSegment "" "unknown_camera" = "unknown_camera" ∧
    sanitizePathSegment "CAM#1/..\\evil" "unknown_camera" = "cam_1_evil" ∧
    sanitizePathSegment "///" "unknown_camera" = "unknown_camera" := by
  refine ⟨?_, by decide, by decide, by decide⟩
  intro v
  simp only [sanitizePathSegment]
  by_cases h1 : lowerStr (String.mk (trimSpace v.data)) = ""
  · rw [if_pos h1]
    exact ⟨by decide, by decide⟩
  · rw [if_neg h1]
    by_cases h2 : trimUnderscore (sanitizeCore
        (lowerStr (String.mk (trimSpace v.data))).data false) = []
    · rw [if_pos h2]
      exact ⟨by decide, by decide⟩
    · rw [if_neg h2]
      constructor
      · intro hcontra
        exact h2 (congrArg String.data hcontra)
      · intro c hc
        have hc2 : c ∈ trimUnderscore (sanitizeCore
            (lowerStr (String.mk (trimSpace v.data))).data false) := hc
        exact sanitizeCore_allowed _ false c (trimUnderscore_mem c hc2)

/-- C10 witness: the charset and non-emptiness guarantee at a concrete
hostile camera id. -/
theorem c10_witness :
    sanitizePathSegment "../../etc" "unknown_camera" ≠ "" ∧
    ∀ c ∈ (sanitizePathSegment "../../etc" "unknown_camera").data,
      allowedSeg c = true :=
  c10_sanitize_segment.1 "../../etc"

end SnowOps

